import Mathlib

/-!
Shallow embedding of the library book-inventory system.

The repository has two delivery modes sharing one entity:
* `library.js` — a one-shot script over a Mongoose `Book` model whose schema
  trims strings, restricts `category` to a fixed enumeration, and validates
  `publishedYear` and `availableCopies` as integers in range;
* `server.js` — an Express REST service over a second `Book` schema that
  keeps the enumeration and the min/max bounds but has no integer validators
  and does not trim `category`.

The store state is a list of documents.  JS numbers are modelled as
rationals (ℚ) so that non-integer values the store can hold are expressible;
the values the claims concern are small integers and halves, exactly
representable, so no floating-point behaviour is lost.  Mongoose setters
(`trim`) run before validators, so validators see setter-processed values;
document-level validation runs on `save()` and on insert, while
`findByIdAndUpdate` with `runValidators: true` casts the id and validates
only the updated paths client-side before the query executes.
-/

namespace LibraryApp

/-- The fixed category enumeration, identical in both schemas. -/
def categories : List String :=
  ["Fiction", "Non-Fiction", "Science", "Technology", "History", "Biography", "Self-Help"]

/-- A stored Book document. `id` models the Mongo `_id`; string fields hold
their setter-processed (trimmed) values. -/
structure Book where
  id : String
  title : String
  author : String
  category : String
  publishedYear : ℚ
  availableCopies : ℚ
deriving DecidableEq

/-- Request-body fields for create / update; an absent field is `none`. -/
structure BookInput where
  title : Option String := none
  author : Option String := none
  category : Option String := none
  publishedYear : Option ℚ := none
  availableCopies : Option ℚ := none

/-- The error taxonomy of the spec plus the store's cast failure:
`castError` models a Mongoose `CastError` raised on a malformed ObjectId,
which the routes' catch blocks surface as a generic failure. -/
inductive ApiError where
  | validationError
  | notFound
  | invalidOperation
  | castError
deriving DecidableEq

/-- `q` is an integer value (`Number.isInteger` on an exactly-represented
number). -/
def isInt (q : ℚ) : Bool := q.den == 1

/-- server.js document validation (run by `save()` on setter-processed
values): required non-empty strings, enumerated category, `publishedYear`
within `[1000, nowYear]`, `availableCopies ≥ 0`.  There are no integer
validators in this schema. -/
def srvValidate (nowYear : ℚ) (b : Book) : Bool :=
  (!(b.title == "")) && (!(b.author == "")) &&
  categories.contains b.category &&
  decide ((1000 : ℚ) ≤ b.publishedYear) && decide (b.publishedYear ≤ nowYear) &&
  decide ((0 : ℚ) ≤ b.availableCopies)

/-- library.js document validation: the server checks plus the
`Number.isInteger` validators on `publishedYear` and `availableCopies`
(its `minlength: 1` on title/author coincides with `required` on the
trimmed value). -/
def libValidate (nowYear : ℚ) (b : Book) : Bool :=
  srvValidate nowYear b && isInt b.publishedYear && isInt b.availableCopies

/-- Strip leading and trailing whitespace from a character list. -/
def trimChars (l : List Char) : List Char :=
  ((l.dropWhile Char.isWhitespace).reverse.dropWhile Char.isWhitespace).reverse

/-- JS `String.prototype.trim` — the `trim: true` schema setter — as an
executable function on the string's characters. -/
def jsTrim (s : String) : String := ⟨trimChars s.data⟩

/-- The document `new Book(input)` materialises: `trim` setters apply to
title and author (and to category only under library.js's schema,
controlled by `trimCategory`); a missing `availableCopies` defaults to 1;
any other missing required field makes validation fail. -/
def mkBook (trimCategory : Bool) (newId : String) (inp : BookInput) : Option Book :=
  match inp.title, inp.author, inp.category, inp.publishedYear with
  | some t, some a, some c, some y =>
      some { id := newId, title := jsTrim t, author := jsTrim a,
             category := if trimCategory then jsTrim c else c,
             publishedYear := y,
             availableCopies := inp.availableCopies.getD 1 }
  | _, _, _, _ => none

/-- `Book.findById` / `findOne({_id})` on a well-cast id. -/
def findById (s : List Book) (id : String) : Option Book :=
  s.find? (fun b => b.id == id)

/-- `Book.findOne({title})`: the first document with that title. -/
def findByTitle (s : List Book) (t : String) : Option Book :=
  s.find? (fun b => b.title == t)

/-- `book.save()` on a fetched document persists it under its own `_id`. -/
def replaceById (s : List Book) (id : String) (b' : Book) : List Book :=
  s.map (fun b => if b.id == id then b' else b)

def isHexDigit (c : Char) : Bool :=
  c.isDigit || ('a' ≤ c && c ≤ 'f') || ('A' ≤ c && c ≤ 'F')

/-- A string Mongoose can cast to an ObjectId: 24 hexadecimal characters.
A string failing this raises a `CastError` in `findById` and friends. -/
def isValidObjectId (s : String) : Bool :=
  s.length == 24 && s.toList.all isHexDigit

/-- The store state an operation leaves behind: the new state on success,
the untouched state when the operation failed. -/
def stateAfter {α : Type} (s : List Book) (r : Except ApiError (α × List Book)) :
    List Book :=
  match r with
  | .ok (_, s') => s'
  | .error _ => s

/-- POST /api/books core: `new Book(req.body); await book.save()` under
server.js's schema; the new document is appended to the store. -/
def srvCreate (nowYear : ℚ) (newId : String) (inp : BookInput) (s : List Book) :
    Except ApiError (Book × List Book) :=
  match mkBook false newId inp with
  | none => .error .validationError
  | some b =>
      if srvValidate nowYear b then .ok (b, s ++ [b])
      else .error .validationError

/-- Script-mode create: `new Book(fields).save()` under library.js's
schema — this is also exactly how each element of `insertMany` is
validated. -/
def libCreate (nowYear : ℚ) (newId : String) (inp : BookInput) (s : List Book) :
    Except ApiError (Book × List Book) :=
  match mkBook true newId inp with
  | none => .error .validationError
  | some b =>
      if libValidate nowYear b then .ok (b, s ++ [b])
      else .error .validationError

/-- The validation `findByIdAndUpdate(..., {runValidators: true})` performs:
only the validators of the paths present in the update run, on the
setter-processed new values, before the query is sent to the store. -/
def validatePatch (nowYear : ℚ) (p : BookInput) : Bool :=
  (match p.title with | none => true | some t => !(jsTrim t == "")) &&
  (match p.author with | none => true | some a => !(jsTrim a == "")) &&
  (match p.category with | none => true | some c => categories.contains c) &&
  (match p.publishedYear with
   | none => true
   | some y => decide ((1000 : ℚ) ≤ y) && decide (y ≤ nowYear)) &&
  (match p.availableCopies with
   | none => true
   | some c => decide ((0 : ℚ) ≤ c))

/-- Merge a partial update into a stored document (`$set` semantics;
string setters trim the incoming values, category is not trimmed in
server.js's schema). -/
def applyPatch (b : Book) (p : BookInput) : Book :=
  { b with
    title := (p.title.map jsTrim).getD b.title
    author := (p.author.map jsTrim).getD b.author
    category := p.category.getD b.category
    publishedYear := p.publishedYear.getD b.publishedYear
    availableCopies := p.availableCopies.getD b.availableCopies }

/-- PUT /api/books/:id core:
`findByIdAndUpdate(id, body, {new: true, runValidators: true})`.
Mongoose casts the id and validates the updated paths before the query
executes, so a malformed id or an invalid provided value fails even when no
document matches; otherwise a missing document yields null (NotFound), and
an existing one is merged, persisted and returned. -/
def srvUpdateFields (nowYear : ℚ) (id : String) (p : BookInput) (s : List Book) :
    Except ApiError (Book × List Book) :=
  if isValidObjectId id then
    if validatePatch nowYear p then
      match findById s id with
      | none => .error .notFound
      | some b => .ok (applyPatch b p, replaceById s id (applyPatch b p))
    else .error .validationError
  else .error .castError

/-- The spec's wording of UpdateFields, stated for comparison with
`srvUpdateFields`: look the record up first (NotFound if missing), then
re-run the FULL document validation on the merged record. -/
def specUpdateFields (nowYear : ℚ) (id : String) (p : BookInput) (s : List Book) :
    Except ApiError (Book × List Book) :=
  if isValidObjectId id then
    match findById s id with
    | none => .error .notFound
    | some b =>
        if srvValidate nowYear (applyPatch b p) then
          .ok (applyPatch b p, replaceById s id (applyPatch b p))
        else .error .validationError
  else .error .castError

/-- PATCH /api/books/:id/copies core: `findById`, the negative-stock guard
on `availableCopies + change`, then mutate and `save()` (which re-runs the
full document validation). -/
def srvAdjustCopies (nowYear : ℚ) (id : String) (change : ℚ) (s : List Book) :
    Except ApiError (Book × List Book) :=
  if isValidObjectId id then
    match findById s id with
    | none => .error .notFound
    | some b =>
        if b.availableCopies + change < 0 then .error .invalidOperation
        else
          let b' := { b with availableCopies := b.availableCopies + change }
          if srvValidate nowYear b' then .ok (b', replaceById s b.id b')
          else .error .validationError
  else .error .castError

/-- library.js `updateCopies(title, change)`: `findOne({title})`, the same
negative-stock guard, then mutate and `save()` under the script schema. -/
def updateCopies (nowYear : ℚ) (t : String) (change : ℚ) (s : List Book) :
    Except ApiError (Book × List Book) :=
  match findByTitle s t with
  | none => .error .notFound
  | some b =>
      if b.availableCopies + change < 0 then .error .invalidOperation
      else
        let b' := { b with availableCopies := b.availableCopies + change }
        if libValidate nowYear b' then .ok (b', replaceById s b.id b')
        else .error .validationError

/-- library.js `changeCategory(title, newCategory)`: set the (trimmed)
category and `save()`; the enum validator runs at save time. -/
def changeCategory (nowYear : ℚ) (t : String) (newCategory : String) (s : List Book) :
    Except ApiError (Book × List Book) :=
  match findByTitle s t with
  | none => .error .notFound
  | some b =>
      let b' := { b with category := jsTrim newCategory }
      if libValidate nowYear b' then .ok (b', replaceById s b.id b')
      else .error .validationError

/-- library.js `deleteBookIfNoCopies(title)`: guard on
`availableCopies > 0`, then `Book.deleteOne({title})` (removes the first
matching document) and return `{deleted: true, book}` — the deleted
snapshot. -/
def deleteBookIfNoCopies (t : String) (s : List Book) :
    Except ApiError ((Bool × Book) × List Book) :=
  match findByTitle s t with
  | none => .error .notFound
  | some b =>
      if 0 < b.availableCopies then .error .invalidOperation
      else .ok ((true, b), s.eraseP (fun x => x.title == t))

/-- library.js `getAllBooks` / GET /api/books: `Book.find({})`. -/
def getAllBooks (s : List Book) : List Book := s

/-- `Book.find({category})`. -/
def getBooksByCategory (s : List Book) (c : String) : List Book :=
  s.filter (fun b => b.category == c)

/-- `Book.find({publishedYear: {$gt: y}})`. -/
def booksAfterYear (s : List Book) (y : ℚ) : List Book :=
  s.filter (fun b => decide (y < b.publishedYear))

/-- library.js `getBooksAfter2015`: the same query with the year fixed
to 2015. -/
def getBooksAfter2015 (s : List Book) : List Book :=
  booksAfterYear s 2015

/-- The fixed demonstration set, identical in library.js `insertBooks` and
the POST /api/seed route; `ids` supplies the store-generated ids. -/
def seedBooks (ids : Nat → String) : List Book :=
  [ { id := ids 0, title := "The Great Gatsby", author := "F. Scott Fitzgerald",
      category := "Fiction", publishedYear := 1925, availableCopies := 5 },
    { id := ids 1, title := "To Kill a Mockingbird", author := "Harper Lee",
      category := "Fiction", publishedYear := 1960, availableCopies := 3 },
    { id := ids 2, title := "Sapiens", author := "Yuval Noah Harari",
      category := "History", publishedYear := 2011, availableCopies := 7 },
    { id := ids 3, title := "Educated", author := "Tara Westover",
      category := "Biography", publishedYear := 2018, availableCopies := 4 },
    { id := ids 4, title := "The Lean Startup", author := "Eric Ries",
      category := "Technology", publishedYear := 2011, availableCopies := 6 },
    { id := ids 5, title := "Atomic Habits", author := "James Clear",
      category := "Self-Help", publishedYear := 2018, availableCopies := 8 },
    { id := ids 6, title := "A Brief History of Time", author := "Stephen Hawking",
      category := "Science", publishedYear := 1988, availableCopies := 2 },
    { id := ids 7, title := "The Midnight Library", author := "Matt Haig",
      category := "Fiction", publishedYear := 2020, availableCopies := 10 } ]

/-- SeedSample: `deleteMany({})` then `insertMany(seed set)` — the prior
state is discarded entirely. -/
def seedSample (ids : Nat → String) (_s : List Book) : List Book :=
  seedBooks ids

/-- The payload of a JSON response: a single document or a list. -/
inductive RespData where
  | one (b : Book)
  | many (l : List Book)
deriving DecidableEq

/-- The response envelope `{success, data?, error?, message?}` together
with the HTTP status code. -/
structure Resp where
  status : Nat
  success : Bool
  data : Option RespData := none
  error : Option String := none
  message : Option String := none
deriving DecidableEq

/-- A store-layer failure injected into a route: `some e` means the awaited
store operation rejects with message `e`, landing in the route's catch
block before any state change. -/
abbrev StoreExn := Option String

/-- GET /api/books: 200 with all documents; catch block responds 500. -/
def getAllBooksRoute (exn : StoreExn) (s : List Book) : Resp :=
  match exn with
  | some e => { status := 500, success := false, error := some e }
  | none => { status := 200, success := true, data := some (.many (getAllBooks s)) }

/-- GET /api/books/category/:category: 200 with the filtered list; catch
block responds 500. -/
def getByCategoryRoute (exn : StoreExn) (c : String) (s : List Book) : Resp :=
  match exn with
  | some e => { status := 500, success := false, error := some e }
  | none =>
      { status := 200, success := true, data := some (.many (getBooksByCategory s c)) }

/-- GET /api/books/year/:year: 200 with the strictly-later documents; catch
block responds 500. -/
def getByYearRoute (exn : StoreExn) (y : ℚ) (s : List Book) : Resp :=
  match exn with
  | some e => { status := 500, success := false, error := some e }
  | none =>
      { status := 200, success := true, data := some (.many (booksAfterYear s y)) }

/-- GET /api/books/:id: 404 when no document matches a well-formed id;
a malformed id makes `findById` throw a CastError, which the catch block
surfaces as 500 (as it does any store failure). -/
def getBookRoute (exn : StoreExn) (id : String) (s : List Book) : Resp :=
  match exn with
  | some e => { status := 500, success := false, error := some e }
  | none =>
      if isValidObjectId id then
        match findById s id with
        | none => { status := 404, success := false, error := some "Book not found" }
        | some b => { status := 200, success := true, data := some (.one b) }
      else { status := 500, success := false, error := some "Cast to ObjectId failed" }

/-- POST /api/books: 201 with the stored document; the catch block responds
400, for validation failures and store failures alike. -/
def createBookRoute (nowYear : ℚ) (exn : StoreExn) (newId : String) (inp : BookInput)
    (s : List Book) : Resp × List Book :=
  match exn with
  | some e => ({ status := 400, success := false, error := some e }, s)
  | none =>
      match srvCreate nowYear newId inp s with
      | .error _ =>
          ({ status := 400, success := false, error := some "Book validation failed" }, s)
      | .ok (b, s') => ({ status := 201, success := true, data := some (.one b) }, s')

/-- PUT /api/books/:id: 404 only for the null result of the update; every
throw — validation failure, cast error on a malformed id, store failure —
lands in the catch block, which responds 400. -/
def putBookRoute (nowYear : ℚ) (exn : StoreExn) (id : String) (p : BookInput)
    (s : List Book) : Resp × List Book :=
  match exn with
  | some e => ({ status := 400, success := false, error := some e }, s)
  | none =>
      match srvUpdateFields nowYear id p s with
      | .error .notFound =>
          ({ status := 404, success := false, error := some "Book not found" }, s)
      | .error _ =>
          ({ status := 400, success := false, error := some "Book validation failed" }, s)
      | .ok (b, s') => ({ status := 200, success := true, data := some (.one b) }, s')

/-- PATCH /api/books/:id/copies: 404 for a missing document, 400 for the
negative-stock guard, and — because the catch block of this route responds
400 — also 400 for cast errors and store failures. -/
def patchCopiesRoute (nowYear : ℚ) (exn : StoreExn) (id : String) (change : ℚ)
    (s : List Book) : Resp × List Book :=
  match exn with
  | some e => ({ status := 400, success := false, error := some e }, s)
  | none =>
      match srvAdjustCopies nowYear id change s with
      | .error .notFound =>
          ({ status := 404, success := false, error := some "Book not found" }, s)
      | .error .invalidOperation =>
          ({ status := 400, success := false,
             error := some "Cannot have negative copies" }, s)
      | .error _ =>
          ({ status := 400, success := false, error := some "Book validation failed" }, s)
      | .ok (b, s') => ({ status := 200, success := true, data := some (.one b) }, s')

/-- DELETE /api/books/:id: 404 for a missing document, 400 for the
still-has-copies guard; on success `findByIdAndDelete` removes the document
with that id (`_id` is unique in the store) and the route responds with a
success message only — it does not return the deleted document.  The catch
block (store failure, cast error) responds 500. -/
def deleteBookRoute (exn : StoreExn) (id : String) (s : List Book) :
    Resp × List Book :=
  match exn with
  | some e => ({ status := 500, success := false, error := some e }, s)
  | none =>
      if isValidObjectId id then
        match findById s id with
        | none => ({ status := 404, success := false, error := some "Book not found" }, s)
        | some b =>
            if 0 < b.availableCopies then
              ({ status := 400, success := false,
                 error := some ("Cannot delete book with "
                   ++ toString b.availableCopies ++ " copies available") }, s)
            else
              ({ status := 200, success := true,
                 message := some "Book deleted successfully" },
               s.filter (fun x => !(x.id == id)))
      else ({ status := 500, success := false, error := some "Cast to ObjectId failed" }, s)

/-- POST /api/seed: destructive reset to the fixed sample set; 200 with a
count message and the inserted documents; catch block responds 500. -/
def seedRoute (exn : StoreExn) (ids : Nat → String) (s : List Book) :
    Resp × List Book :=
  match exn with
  | some e => ({ status := 500, success := false, error := some e }, s)
  | none =>
      ({ status := 200, success := true,
         message := some ("Inserted " ++ toString (seedBooks ids).length ++ " books"),
         data := some (.many (seedBooks ids)) }, seedSample ids s)

/-- The C1 predicate on a stored document: non-negative stock and an
enumerated category. -/
def GoodBook (b : Book) : Prop :=
  0 ≤ b.availableCopies ∧ b.category ∈ categories

instance : DecidablePred GoodBook := fun b => by
  unfold GoodBook; infer_instance

/-- The C1 predicate on the whole store. -/
def GoodState (s : List Book) : Prop := ∀ b ∈ s, GoodBook b

instance : DecidablePred GoodState := fun s => by
  unfold GoodState; infer_instance

/-- The reachable-store invariant of the service: every stored document
passes server.js validation and ids are unique (the store enforces `_id`
uniqueness). -/
def SrvInv (nowYear : ℚ) (s : List Book) : Prop :=
  (∀ b ∈ s, srvValidate nowYear b = true) ∧ (s.map Book.id).Nodup

/-- A well-formed ObjectId used in concrete instances. -/
def oidA : String := "aaaaaaaaaaaaaaaaaaaaaaaa"

/-- A second well-formed ObjectId. -/
def oidB : String := "bbbbbbbbbbbbbbbbbbbbbbbb"

/-- A create request that is valid under server.js's schema but whose
`availableCopies` is the non-integer 5/2. -/
def halfCopiesInput : BookInput :=
  { title := some "Dune", author := some "Frank Herbert", category := some "Fiction",
    publishedYear := some 1965, availableCopies := some (5/2) }

/-- The document `halfCopiesInput` stores. -/
def halfCopiesBook : Book :=
  { id := oidA, title := "Dune", author := "Frank Herbert", category := "Fiction",
    publishedYear := 1965, availableCopies := 5/2 }

/-- A valid stored document with three copies, used in concrete instances
(the spec's Dune scenario). -/
def duneBook : Book :=
  { id := oidA, title := "Dune", author := "Frank Herbert", category := "Fiction",
    publishedYear := 1965, availableCopies := 3 }

/-- The same document with zero copies, eligible for deletion. -/
def zeroCopiesBook : Book :=
  { id := oidA, title := "Dune", author := "Frank Herbert", category := "Fiction",
    publishedYear := 1965, availableCopies := 0 }

/-- A fully valid create request that omits `availableCopies`. -/
def demoInput : BookInput :=
  { title := some "Dune", author := some "Frank Herbert",
    category := some "Fiction", publishedYear := some 1965 }

/-- A partial update whose category is outside the enumeration. -/
def badCategoryPatch : BookInput := { category := some "InvalidCategory" }

/-- A create request that is valid under server.js's schema but whose
`publishedYear` is the non-integer 4023/2 (= 2011.5). -/
def halfYearInput : BookInput :=
  { title := some "Dune", author := some "Frank Herbert",
    category := some "Fiction", publishedYear := some (4023/2),
    availableCopies := some 1 }

/-- The document `halfYearInput` stores. -/
def halfYearBook : Book :=
  { id := oidA, title := "Dune", author := "Frank Herbert", category := "Fiction",
    publishedYear := 4023/2, availableCopies := 1 }

/-! ## Helper lemmas -/

theorem srvValidate_iff {nowYear : ℚ} {b : Book} :
    srvValidate nowYear b = true ↔
      b.title ≠ "" ∧ b.author ≠ "" ∧ b.category ∈ categories ∧
      1000 ≤ b.publishedYear ∧ b.publishedYear ≤ nowYear ∧
      0 ≤ b.availableCopies := by
  simp [srvValidate, List.contains, List.elem_iff, and_assoc]

theorem libValidate_iff {nowYear : ℚ} {b : Book} :
    libValidate nowYear b = true ↔
      srvValidate nowYear b = true ∧ b.publishedYear.den = 1 ∧
      b.availableCopies.den = 1 := by
  simp [libValidate, isInt, and_assoc]

theorem good_of_srvValidate {nowYear : ℚ} {b : Book}
    (h : srvValidate nowYear b = true) : GoodBook b := by
  have h' := srvValidate_iff.mp h
  exact ⟨h'.2.2.2.2.2, h'.2.2.1⟩

theorem mem_replaceById {s : List Book} {id : String} {b' x : Book}
    (hx : x ∈ replaceById s id b') : x ∈ s ∨ x = b' := by
  unfold replaceById at hx
  rcases List.mem_map.mp hx with ⟨y, hy, hxy⟩
  by_cases h : (y.id == id) = true
  · right
    rw [← hxy]
    simp [h]
  · left
    rw [← hxy]
    simp only [h, if_neg]
    simpa [h] using hy

theorem findById_replaceById {s : List Book} {id : String} {b b' : Book}
    (h : findById s id = some b) (hb' : (b'.id == id) = true) :
    findById (replaceById s id b') id = some b' := by
  induction s with
  | nil => simp [findById] at h
  | cons x xs ih =>
    by_cases hx : (x.id == id) = true
    · show List.find? (fun c => c.id == id)
        ((if (x.id == id) = true then b' else x) :: replaceById xs id b') = some b'
      rw [if_pos hx]
      exact @List.find?_cons_of_pos _ (fun c => c.id == id) b' (replaceById xs id b') hb'
    · have h' : findById xs id = some b := by
        have hcons : List.find? (fun c => c.id == id) (x :: xs) = some b := h
        rwa [@List.find?_cons_of_neg _ (fun c => c.id == id) x xs hx] at hcons
      show List.find? (fun c => c.id == id)
        ((if (x.id == id) = true then b' else x) :: replaceById xs id b') = some b'
      rw [if_neg hx,
        @List.find?_cons_of_neg _ (fun c => c.id == id) x (replaceById xs id b') hx]
      exact ih h'

theorem findById_filter_self (s : List Book) (id : String) :
    findById (s.filter (fun x => !(x.id == id))) id = none := by
  apply List.find?_eq_none.mpr
  intro x hx
  have h := (List.mem_filter.mp hx).2
  simpa using h

theorem validatePatch_iff {nowYear : ℚ} {p : BookInput} :
    validatePatch nowYear p = true ↔
      (∀ t, p.title = some t → jsTrim t ≠ "") ∧
      (∀ a, p.author = some a → jsTrim a ≠ "") ∧
      (∀ c, p.category = some c → c ∈ categories) ∧
      (∀ y, p.publishedYear = some y → 1000 ≤ y ∧ y ≤ nowYear) ∧
      (∀ q, p.availableCopies = some q → 0 ≤ q) := by
  obtain ⟨pt, pa, pc, py, pq⟩ := p
  cases pt <;> cases pa <;> cases pc <;> cases py <;> cases pq <;>
    simp [validatePatch, List.contains, List.elem_iff, and_assoc]

theorem good_applyPatch {nowYear : ℚ} {b : Book} {p : BookInput}
    (hb : GoodBook b) (hp : validatePatch nowYear p = true) :
    GoodBook (applyPatch b p) := by
  obtain ⟨hcop, hcat⟩ := hb
  obtain ⟨-, -, hc, -, hq⟩ := validatePatch_iff.mp hp
  constructor
  · show 0 ≤ p.availableCopies.getD b.availableCopies
    cases hpq : p.availableCopies with
    | none => simpa using hcop
    | some q => simpa using hq q hpq
  · show p.category.getD b.category ∈ categories
    cases hpc : p.category with
    | none => simpa using hcat
    | some c => simpa using hc c hpc

theorem goodState_append {s : List Book} {b : Book}
    (hs : GoodState s) (hb : GoodBook b) : GoodState (s ++ [b]) := by
  intro x hx
  rcases List.mem_append.mp hx with h | h
  · exact hs x h
  · rw [List.mem_singleton.mp h]
    exact hb

theorem goodState_replace {s : List Book} {id : String} {b' : Book}
    (hs : GoodState s) (hb : GoodBook b') : GoodState (replaceById s id b') := by
  intro x hx
  rcases mem_replaceById hx with h | rfl
  · exact hs x h
  · exact hb

theorem goodState_subset {s s' : List Book}
    (hsub : ∀ x ∈ s', x ∈ s) (hs : GoodState s) : GoodState s' :=
  fun x hx => hs x (hsub x hx)

theorem goodState_seed (ids : Nat → String) : GoodState (seedBooks ids) := by
  intro b hb
  simp only [seedBooks, List.mem_cons, List.not_mem_nil, or_false] at hb
  rcases hb with rfl | rfl | rfl | rfl | rfl | rfl | rfl | rfl <;>
    exact ⟨by norm_num, by simp [categories]⟩

theorem srvValidate_setCopies {nowYear q : ℚ} {b : Book}
    (hv : srvValidate nowYear b = true) (hq : 0 ≤ q) :
    srvValidate nowYear { b with availableCopies := q } = true := by
  obtain ⟨h1, h2, h3, h4, h5, -⟩ := srvValidate_iff.mp hv
  exact srvValidate_iff.mpr ⟨h1, h2, h3, h4, h5, hq⟩

theorem libValidate_setCopies {nowYear q : ℚ} {b : Book}
    (hv : libValidate nowYear b = true) (hq : 0 ≤ q) (hint : q.den = 1) :
    libValidate nowYear { b with availableCopies := q } = true := by
  obtain ⟨hsrv, hy, -⟩ := libValidate_iff.mp hv
  exact libValidate_iff.mpr ⟨srvValidate_setCopies hsrv hq, hy, hint⟩

/-! ## Claims -/

/-- C8: for every stored set and every year `y`, the year query returns
exactly the stored books with `publishedYear` strictly greater than `y`
(membership characterisation, so no ordering is asserted); library.js's
`getBooksAfter2015` is the same query at 2015, and the service route wraps
the same result set. -/
theorem C8_list_by_year_after (s : List Book) (y : ℚ) (b : Book) :
    (b ∈ booksAfterYear s y ↔ b ∈ s ∧ y < b.publishedYear) ∧
    getBooksAfter2015 s = booksAfterYear s 2015 ∧
    getByYearRoute none y s =
      { status := 200, success := true, data := some (.many (booksAfterYear s y)) } := by
  refine ⟨?_, rfl, rfl⟩
  simp [booksAfterYear, List.mem_filter]

/-- C10: in service mode, GetById responds 404 only for a well-formed id
matching no record; a malformed id makes the store's id cast throw, and the
catch block surfaces that as the generic 500 failure, not as 404. -/
theorem C10_get_by_id_statuses (s s₂ : List Book) (id id₂ : String)
    (hval : isValidObjectId id = true) (hnone : findById s id = none)
    (hbad : isValidObjectId id₂ = false) :
    getBookRoute none id s =
      { status := 404, success := false, error := some "Book not found" } ∧
    getBookRoute none id₂ s₂ =
      { status := 500, success := false, error := some "Cast to ObjectId failed" } := by
  constructor
  · simp [getBookRoute, hval, hnone]
  · simp [getBookRoute, hbad]

/-- Witness for C10: a missing well-formed id gives 404 and a malformed id
gives 500 on the empty store. -/
theorem C10_get_by_id_statuses_witness :
    getBookRoute none oidA [] =
      { status := 404, success := false, error := some "Book not found" } ∧
    getBookRoute none "not-an-objectid" [] =
      { status := 500, success := false, error := some "Cast to ObjectId failed" } :=
  C10_get_by_id_statuses [] [] oidA "not-an-objectid" (by decide) (by decide) (by decide)

/-- C1 amended: for every store satisfying the claimed predicate with the
integrality dropped — every stored Book has a NON-NEGATIVE `availableCopies`
and a `category` in the fixed enumeration — each operation of both modes
(Create, UpdateFields, AdjustCopies, ChangeCategory, DeleteIfEmpty,
SeedSample) preserves the predicate.  Integrality of `availableCopies` is
enforced only by the script schema; the service schema can store
non-integer values (see the counterexample). -/
theorem C1_invariant_preserved (nowYear change : ℚ) (newId id t cat : String)
    (inp p : BookInput) (ids : Nat → String) (s : List Book)
    (hs : GoodState s) :
    GoodState (stateAfter s (srvCreate nowYear newId inp s)) ∧
    GoodState (stateAfter s (libCreate nowYear newId inp s)) ∧
    GoodState (stateAfter s (srvUpdateFields nowYear id p s)) ∧
    GoodState (stateAfter s (srvAdjustCopies nowYear id change s)) ∧
    GoodState (stateAfter s (updateCopies nowYear t change s)) ∧
    GoodState (stateAfter s (changeCategory nowYear t cat s)) ∧
    GoodState ((deleteBookRoute none id s).2) ∧
    GoodState (stateAfter s (deleteBookIfNoCopies t s)) ∧
    GoodState (seedSample ids s) := by
  refine ⟨?_, ?_, ?_, ?_, ?_, ?_, ?_, ?_, goodState_seed ids⟩
  · -- srvCreate
    cases hmk : mkBook false newId inp with
    | none => simpa [srvCreate, hmk, stateAfter] using hs
    | some b =>
      by_cases hv : srvValidate nowYear b = true
      · simp only [srvCreate, hmk, hv, if_true, stateAfter]
        exact goodState_append hs (good_of_srvValidate hv)
      · simpa [srvCreate, hmk, hv, stateAfter] using hs
  · -- libCreate
    cases hmk : mkBook true newId inp with
    | none => simpa [libCreate, hmk, stateAfter] using hs
    | some b =>
      by_cases hv : libValidate nowYear b = true
      · simp only [libCreate, hmk, hv, if_true, stateAfter]
        exact goodState_append hs (good_of_srvValidate (libValidate_iff.mp hv).1)
      · simpa [libCreate, hmk, hv, stateAfter] using hs
  · -- srvUpdateFields
    by_cases hid : isValidObjectId id = true
    · by_cases hp : validatePatch nowYear p = true
      · cases hfind : findById s id with
        | none => simpa [srvUpdateFields, hid, hp, hfind, stateAfter] using hs
        | some b =>
          simp only [srvUpdateFields, hid, hp, hfind, if_true, stateAfter]
          have hb : GoodBook b := hs b (List.mem_of_find?_eq_some hfind)
          exact goodState_replace hs (good_applyPatch hb hp)
      · simpa [srvUpdateFields, hid, hp, stateAfter] using hs
    · simpa [srvUpdateFields, hid, stateAfter] using hs
  · -- srvAdjustCopies
    by_cases hid : isValidObjectId id = true
    · cases hfind : findById s id with
      | none => simpa [srvAdjustCopies, hid, hfind, stateAfter] using hs
      | some b =>
        by_cases hneg : b.availableCopies + change < 0
        · simpa [srvAdjustCopies, hid, hfind, hneg, stateAfter] using hs
        · by_cases hv : srvValidate nowYear
              { b with availableCopies := b.availableCopies + change } = true
          · simp only [srvAdjustCopies, hid, hfind, hneg, hv, if_true, if_false,
              stateAfter]
            exact goodState_replace hs (good_of_srvValidate hv)
          · simpa [srvAdjustCopies, hid, hfind, hneg, hv, stateAfter] using hs
    · simpa [srvAdjustCopies, hid, stateAfter] using hs
  · -- updateCopies (script mode)
    cases hfind : findByTitle s t with
    | none => simpa [updateCopies, hfind, stateAfter] using hs
    | some b =>
      by_cases hneg : b.availableCopies + change < 0
      · simpa [updateCopies, hfind, hneg, stateAfter] using hs
      · by_cases hv : libValidate nowYear
            { b with availableCopies := b.availableCopies + change } = true
        · simp only [updateCopies, hfind, hneg, hv, if_true, if_false, stateAfter]
          exact goodState_replace hs (good_of_srvValidate (libValidate_iff.mp hv).1)
        · simpa [updateCopies, hfind, hneg, hv, stateAfter] using hs
  · -- changeCategory (script mode)
    cases hfind : findByTitle s t with
    | none => simpa [changeCategory, hfind, stateAfter] using hs
    | some b =>
      by_cases hv : libValidate nowYear { b with category := jsTrim cat } = true
      · simp only [changeCategory, hfind, hv, if_true, stateAfter]
        exact goodState_replace hs (good_of_srvValidate (libValidate_iff.mp hv).1)
      · simpa [changeCategory, hfind, hv, stateAfter] using hs
  · -- deleteBookRoute
    by_cases hid : isValidObjectId id = true
    · cases hfind : findById s id with
      | none => simpa [deleteBookRoute, hid, hfind] using hs
      | some b =>
        by_cases hpos : 0 < b.availableCopies
        · simpa [deleteBookRoute, hid, hfind, hpos] using hs
        · simp only [deleteBookRoute, hid, hfind, hpos, if_true, if_false]
          exact goodState_subset (fun x hx => List.mem_of_mem_filter hx) hs
    · simpa [deleteBookRoute, hid] using hs
  · -- deleteBookIfNoCopies (script mode)
    cases hfind : findByTitle s t with
    | none => simpa [deleteBookIfNoCopies, hfind, stateAfter] using hs
    | some b =>
      by_cases hpos : 0 < b.availableCopies
      · simpa [deleteBookIfNoCopies, hfind, hpos, stateAfter] using hs
      · simp only [deleteBookIfNoCopies, hfind, hpos, if_true, if_false, stateAfter]
        exact goodState_subset (fun x hx => (List.eraseP_sublist s).subset hx) hs

/-- Witness for C1: the preservation theorem applied to the concrete
store holding `halfCopiesBook` (which satisfies the predicate). -/
theorem C1_invariant_preserved_witness :
    GoodState (stateAfter [halfCopiesBook]
      (srvAdjustCopies 2026 oidA 1 [halfCopiesBook])) ∧
    GoodState (seedSample (fun _ => oidB) [halfCopiesBook]) := by
  have h := C1_invariant_preserved 2026 1 oidB oidA "Dune" "Science"
    { title := some "X" } { category := some "Science" } (fun _ => oidB)
    [halfCopiesBook]
    (by
      intro b hb
      rw [List.mem_singleton.mp hb]
      exact ⟨by norm_num [halfCopiesBook], by decide⟩)
  exact ⟨h.2.2.2.1, h.2.2.2.2.2.2.2.2⟩

/-- C1 is refuted as stated: the service schema has no integer validator on
`availableCopies`, so a single Create on the empty store — a reachable
state — persists the non-integer value 5/2 (`Number.isInteger` is false
for it). -/
theorem C1_counterexample :
    srvCreate 2026 oidA halfCopiesInput [] = .ok (halfCopiesBook, [halfCopiesBook]) ∧
    isInt halfCopiesBook.availableCopies = false := by
  have hv : srvValidate 2026 halfCopiesBook = true :=
    srvValidate_iff.mpr
      ⟨by decide, by decide, by decide, by decide, by decide, by norm_num [halfCopiesBook]⟩
  have hden : ((5 : ℚ)/2).den = 2 := by norm_num
  constructor
  · have hstep : srvCreate 2026 oidA halfCopiesInput [] =
        if srvValidate 2026 halfCopiesBook then .ok (halfCopiesBook, [halfCopiesBook])
        else .error .validationError := rfl
    rw [hstep, if_pos hv]
  · show isInt (5/2 : ℚ) = false
    simp [isInt, hden]

/-- C2: AdjustCopies in both modes — service (`PATCH .../copies` core, by
id) and script (`updateCopies`, by title).  A missing record fails with
NotFound; a delta that would make the stock negative fails with
InvalidOperation and leaves the store untouched; otherwise the new value
`c + delta` is persisted (the script-mode success additionally assumes the
integral result its schema's integer validator requires). -/
theorem C2_adjust_copies (nowYear : ℚ)
    (id₁ : String) (s₁ : List Book) (c₁ : ℚ)
    (hid₁ : isValidObjectId id₁ = true) (h₁ : findById s₁ id₁ = none)
    (id₂ : String) (s₂ : List Book) (b₂ : Book) (c₂ : ℚ)
    (hid₂ : isValidObjectId id₂ = true) (h₂ : findById s₂ id₂ = some b₂)
    (hneg₂ : b₂.availableCopies + c₂ < 0)
    (id₃ : String) (s₃ : List Book) (b₃ : Book) (c₃ : ℚ)
    (hid₃ : isValidObjectId id₃ = true) (h₃ : findById s₃ id₃ = some b₃)
    (hpos₃ : ¬ b₃.availableCopies + c₃ < 0) (hv₃ : srvValidate nowYear b₃ = true)
    (t₄ : String) (s₄ : List Book) (c₄ : ℚ) (h₄ : findByTitle s₄ t₄ = none)
    (t₅ : String) (s₅ : List Book) (b₅ : Book) (c₅ : ℚ)
    (h₅ : findByTitle s₅ t₅ = some b₅) (hneg₅ : b₅.availableCopies + c₅ < 0)
    (t₆ : String) (s₆ : List Book) (b₆ : Book) (c₆ : ℚ)
    (h₆ : findByTitle s₆ t₆ = some b₆) (hpos₆ : ¬ b₆.availableCopies + c₆ < 0)
    (hv₆ : libValidate nowYear b₆ = true)
    (hint₆ : (b₆.availableCopies + c₆).den = 1) :
    srvAdjustCopies nowYear id₁ c₁ s₁ = .error .notFound ∧
    (srvAdjustCopies nowYear id₂ c₂ s₂ = .error .invalidOperation ∧
      stateAfter s₂ (srvAdjustCopies nowYear id₂ c₂ s₂) = s₂) ∧
    (srvAdjustCopies nowYear id₃ c₃ s₃ =
        .ok ({ b₃ with availableCopies := b₃.availableCopies + c₃ },
          replaceById s₃ b₃.id
            { b₃ with availableCopies := b₃.availableCopies + c₃ }) ∧
      findById
        (replaceById s₃ b₃.id
          { b₃ with availableCopies := b₃.availableCopies + c₃ }) id₃ =
        some { b₃ with availableCopies := b₃.availableCopies + c₃ }) ∧
    updateCopies nowYear t₄ c₄ s₄ = .error .notFound ∧
    (updateCopies nowYear t₅ c₅ s₅ = .error .invalidOperation ∧
      stateAfter s₅ (updateCopies nowYear t₅ c₅ s₅) = s₅) ∧
    updateCopies nowYear t₆ c₆ s₆ =
      .ok ({ b₆ with availableCopies := b₆.availableCopies + c₆ },
        replaceById s₆ b₆.id
          { b₆ with availableCopies := b₆.availableCopies + c₆ }) := by
  have hok₃ : srvAdjustCopies nowYear id₃ c₃ s₃ =
      .ok ({ b₃ with availableCopies := b₃.availableCopies + c₃ },
        replaceById s₃ b₃.id
          { b₃ with availableCopies := b₃.availableCopies + c₃ }) := by
    have hv' := srvValidate_setCopies hv₃ (not_lt.mp hpos₃)
    simp [srvAdjustCopies, hid₃, h₃, hpos₃, hv']
  refine ⟨?_, ⟨?_, ?_⟩, ⟨hok₃, ?_⟩, ?_, ⟨?_, ?_⟩, ?_⟩
  · simp [srvAdjustCopies, hid₁, h₁]
  · simp [srvAdjustCopies, hid₂, h₂, hneg₂]
  · simp [srvAdjustCopies, hid₂, h₂, hneg₂, stateAfter]
  · have hbid : (b₃.id == id₃) = true :=
      @List.find?_some _ (fun c : Book => c.id == id₃) b₃ s₃ h₃
    have hbid' : b₃.id = id₃ := by simpa using hbid
    rw [hbid']
    exact findById_replaceById h₃ (by simp [hbid'])
  · simp [updateCopies, h₄]
  · simp [updateCopies, h₅, hneg₅]
  · simp [updateCopies, h₅, hneg₅, stateAfter]
  · have hv' := libValidate_setCopies hv₆ (not_lt.mp hpos₆) hint₆
    simp [updateCopies, h₆, hpos₆, hv']

/-- Witness for C2: the Dune scenario — a missing id is NotFound, −5 on a
stock of 3 is rejected, +2 on a stock of 3 is persisted. -/
theorem C2_adjust_copies_witness :
    srvAdjustCopies 2026 oidB 1 [] = .error .notFound ∧
    srvAdjustCopies 2026 oidA (-5) [duneBook] = .error .invalidOperation ∧
    updateCopies 2026 "Dune" 2 [duneBook] =
      .ok ({ duneBook with availableCopies := duneBook.availableCopies + 2 },
        replaceById [duneBook] duneBook.id
          { duneBook with availableCopies := duneBook.availableCopies + 2 }) := by
  have h := C2_adjust_copies 2026
    oidB [] 1 (by decide) (by decide)
    oidA [duneBook] duneBook (-5) (by decide) (by decide)
      (by norm_num [duneBook])
    oidA [duneBook] duneBook 2 (by decide) (by decide)
      (by norm_num [duneBook]) (by decide)
    "Dune" [] 1 (by decide)
    "Dune" [duneBook] duneBook (-5) (by decide) (by norm_num [duneBook])
    "Dune" [duneBook] duneBook 2 (by decide) (by norm_num [duneBook])
      (by decide) (by norm_num [duneBook])
  exact ⟨h.1, h.2.1.1, h.2.2.2.2.2⟩

/-- C3 is refuted in its "returns the deleted snapshot" part: in service
mode, deleting a zero-copy book succeeds (200, success message) but the
response carries no data — the deleted document is not returned.  Only the
title-keyed script function returns the snapshot. -/
theorem C3_counterexample :
    (deleteBookRoute none oidA [zeroCopiesBook]).1 =
      { status := 200, success := true, message := some "Book deleted successfully" } ∧
    (deleteBookRoute none oidA [zeroCopiesBook]).1.data = none := by
  constructor <;> decide

/-- C3 amended: DeleteIfEmpty succeeds exactly on an existing record with
zero copies; a missing record is NotFound (404), a positive stock is
rejected (400) leaving the store unchanged, and success removes the record
permanently — it is absent from every later ListAll.  In service mode the
response carries only a success message; the deleted snapshot is returned
by the script-mode (title-keyed) function. -/
theorem C3_delete_if_empty
    (id₁ : String) (s₁ : List Book)
    (hid₁ : isValidObjectId id₁ = true) (h₁ : findById s₁ id₁ = none)
    (id₂ : String) (s₂ : List Book) (b₂ : Book)
    (hid₂ : isValidObjectId id₂ = true) (h₂ : findById s₂ id₂ = some b₂)
    (hpos₂ : 0 < b₂.availableCopies)
    (id₃ : String) (s₃ : List Book) (b₃ : Book)
    (hid₃ : isValidObjectId id₃ = true) (h₃ : findById s₃ id₃ = some b₃)
    (hzero₃ : b₃.availableCopies = 0)
    (id₄ : String) (s₄ : List Book)
    (hid₄ : isValidObjectId id₄ = true) (hgood₄ : GoodState s₄)
    (t₅ : String) (s₅ : List Book) (b₅ : Book)
    (h₅ : findByTitle s₅ t₅ = some b₅) (hzero₅ : b₅.availableCopies = 0)
    (t₆ : String) (s₆ : List Book) (h₆ : findByTitle s₆ t₆ = none)
    (t₇ : String) (s₇ : List Book) (b₇ : Book)
    (h₇ : findByTitle s₇ t₇ = some b₇) (hpos₇ : 0 < b₇.availableCopies) :
    deleteBookRoute none id₁ s₁ =
      ({ status := 404, success := false, error := some "Book not found" }, s₁) ∧
    deleteBookRoute none id₂ s₂ =
      ({ status := 400, success := false,
         error := some ("Cannot delete book with "
           ++ toString b₂.availableCopies ++ " copies available") }, s₂) ∧
    (deleteBookRoute none id₃ s₃ =
        ({ status := 200, success := true,
           message := some "Book deleted successfully" },
         s₃.filter (fun x => !(x.id == id₃))) ∧
      findById ((deleteBookRoute none id₃ s₃).2) id₃ = none ∧
      ∀ x ∈ getAllBooks ((deleteBookRoute none id₃ s₃).2), x.id ≠ id₃) ∧
    ((deleteBookRoute none id₄ s₄).1.success = true ↔
      ∃ b, findById s₄ id₄ = some b ∧ b.availableCopies = 0) ∧
    deleteBookIfNoCopies t₅ s₅ =
      .ok ((true, b₅), s₅.eraseP (fun x => x.title == t₅)) ∧
    deleteBookIfNoCopies t₆ s₆ = .error .notFound ∧
    deleteBookIfNoCopies t₇ s₇ = .error .invalidOperation := by
  have hnpos₃ : ¬ 0 < b₃.availableCopies := by rw [hzero₃]; exact lt_irrefl 0
  have hnpos₅ : ¬ 0 < b₅.availableCopies := by rw [hzero₅]; exact lt_irrefl 0
  refine ⟨?_, ?_, ⟨?_, ?_, ?_⟩, ?_, ?_, ?_, ?_⟩
  · simp [deleteBookRoute, hid₁, h₁]
  · simp [deleteBookRoute, hid₂, h₂, hpos₂]
  · simp [deleteBookRoute, hid₃, h₃, hnpos₃]
  · simp only [deleteBookRoute, hid₃, h₃, hnpos₃, if_true, if_false]
    exact findById_filter_self s₃ id₃
  · intro x hx
    simp only [deleteBookRoute, hid₃, h₃, hnpos₃, if_true, if_false,
      getAllBooks] at hx
    have := (List.mem_filter.mp hx).2
    simpa using this
  · by_cases hfind : ∃ b, findById s₄ id₄ = some b
    · obtain ⟨b, hb⟩ := hfind
      by_cases hpos : 0 < b.availableCopies
      · simp only [deleteBookRoute, hid₄, hb, hpos, if_true]
        constructor
        · intro hfalse
          simp at hfalse
        · rintro ⟨b', hb', hz⟩
          cases hb'
          exact absurd hpos (by rw [hz]; exact lt_irrefl 0)
      · simp only [deleteBookRoute, hid₄, hb, hpos, if_false]
        constructor
        · intro _
          have hmem : b ∈ s₄ := List.mem_of_find?_eq_some hb
          exact ⟨b, rfl, le_antisymm (not_lt.mp hpos) (hgood₄ b hmem).1⟩
        · intro _
          rfl
    · have hnone : findById s₄ id₄ = none := by
        cases h : findById s₄ id₄ with
        | none => rfl
        | some b => exact absurd ⟨b, h⟩ hfind
      simp [deleteBookRoute, hid₄, hnone]
  · simp [deleteBookIfNoCopies, h₅, hnpos₅]
  · simp [deleteBookIfNoCopies, h₆]
  · simp [deleteBookIfNoCopies, h₇, hpos₇]

/-- Witness for C3: deleting the zero-copy Dune succeeds and removes it;
deleting the three-copy Dune is rejected; a missing id or title is
NotFound. -/
theorem C3_delete_if_empty_witness :
    deleteBookRoute none oidB [zeroCopiesBook] =
      ({ status := 404, success := false, error := some "Book not found" },
        [zeroCopiesBook]) ∧
    findById ((deleteBookRoute none oidA [zeroCopiesBook]).2) oidA = none ∧
    deleteBookIfNoCopies "Dune" [zeroCopiesBook] =
      .ok ((true, zeroCopiesBook),
        [zeroCopiesBook].eraseP (fun x => x.title == "Dune")) := by
  have h := C3_delete_if_empty
    oidB [zeroCopiesBook] (by decide) (by decide)
    oidA [duneBook] duneBook (by decide) (by decide) (by norm_num [duneBook])
    oidA [zeroCopiesBook] zeroCopiesBook (by decide) (by decide)
      (by norm_num [zeroCopiesBook])
    oidA [zeroCopiesBook] (by decide)
      (by
        intro b hb
        rw [List.mem_singleton.mp hb]
        exact ⟨by norm_num [zeroCopiesBook], by decide⟩)
    "Dune" [zeroCopiesBook] zeroCopiesBook (by decide)
      (by norm_num [zeroCopiesBook])
    "Missing" [] (by decide)
    "Dune" [duneBook] duneBook (by decide) (by norm_num [duneBook])
  exact ⟨h.1, h.2.2.1.2.1, h.2.2.2.2.1⟩

/-- C4: a service-mode Create whose fields satisfy all data-model
constraints (title and author non-empty after the schema's trim setter,
enumerated category, integer publishedYear in range, integer
availableCopies ≥ 0 or omitted) succeeds, appends the stored record, and
the stored record satisfies every constraint, carries the generated id and
defaults `availableCopies` to 1 when it was omitted. -/
theorem C4_create_valid (nowYear : ℚ) (newId : String) (s : List Book)
    (inp : BookInput) (t a c : String) (y : ℚ)
    (ht : inp.title = some t) (hht : jsTrim t ≠ "")
    (ha : inp.author = some a) (hha : jsTrim a ≠ "")
    (hc : inp.category = some c) (hcc : c ∈ categories)
    (hy : inp.publishedYear = some y) (hyi : y.den = 1)
    (hy1 : 1000 ≤ y) (hy2 : y ≤ nowYear)
    (hcop : inp.availableCopies = none ∨
      ∃ q, inp.availableCopies = some q ∧ q.den = 1 ∧ 0 ≤ q) :
    ∃ b : Book, srvCreate nowYear newId inp s = .ok (b, s ++ [b]) ∧
      b.id = newId ∧ b.title ≠ "" ∧ b.author ≠ "" ∧ b.category ∈ categories ∧
      b.publishedYear.den = 1 ∧ 1000 ≤ b.publishedYear ∧
      b.publishedYear ≤ nowYear ∧
      b.availableCopies.den = 1 ∧ 0 ≤ b.availableCopies ∧
      (inp.availableCopies = none → b.availableCopies = 1) := by
  have hq : (inp.availableCopies.getD 1).den = 1 ∧ 0 ≤ inp.availableCopies.getD 1 := by
    rcases hcop with hnone | ⟨q, hqe, hqd, hq0⟩
    · rw [hnone]
      exact ⟨rfl, by norm_num⟩
    · rw [hqe]
      exact ⟨hqd, hq0⟩
  refine ⟨{ id := newId, title := jsTrim t, author := jsTrim a, category := c,
            publishedYear := y, availableCopies := inp.availableCopies.getD 1 },
    ?_, rfl, hht, hha, hcc, hyi, hy1, hy2, hq.1, hq.2, ?_⟩
  · have hmk : mkBook false newId inp =
        some { id := newId, title := jsTrim t, author := jsTrim a, category := c,
               publishedYear := y, availableCopies := inp.availableCopies.getD 1 } := by
      unfold mkBook
      rw [ht, ha, hc, hy]
      rfl
    have hv : srvValidate nowYear
        { id := newId, title := jsTrim t, author := jsTrim a, category := c,
          publishedYear := y, availableCopies := inp.availableCopies.getD 1 } = true :=
      srvValidate_iff.mpr ⟨hht, hha, hcc, hy1, hy2, hq.2⟩
    simp [srvCreate, hmk, hv]
  · intro hnone
    show inp.availableCopies.getD 1 = 1
    rw [hnone]
    rfl

/-- Witness for C4: creating Dune without `availableCopies` stores it with
one copy. -/
theorem C4_create_valid_witness :
    ∃ b : Book, srvCreate 2026 oidA demoInput [] = .ok (b, [] ++ [b]) ∧
      b.availableCopies = 1 := by
  obtain ⟨b, hok, -, -, -, -, -, -, -, -, -, hdef⟩ :=
    C4_create_valid 2026 oidA [] demoInput "Dune" "Frank Herbert" "Fiction" 1965
      rfl (by decide) rfl (by decide) rfl (by decide) rfl (by decide)
      (by decide) (by decide) (Or.inl rfl)
  exact ⟨b, hok, hdef rfl⟩

/-- On a document that already passes full validation, validating only the
updated paths (what `runValidators` does) agrees with re-running the full
document validation on the merged record. -/
theorem validatePatch_eq_srvValidate {nowYear : ℚ} (b : Book) (p : BookInput)
    (hb : srvValidate nowYear b = true) :
    validatePatch nowYear p = srvValidate nowYear (applyPatch b p) := by
  obtain ⟨h1, h2, h3, h4, h5, h6⟩ := srvValidate_iff.mp hb
  rw [Bool.eq_iff_iff]
  constructor
  · intro hp
    obtain ⟨q1, q2, q3, q4, q5⟩ := validatePatch_iff.mp hp
    apply srvValidate_iff.mpr
    refine ⟨?_, ?_, ?_, ?_, ?_, ?_⟩
    · show (p.title.map jsTrim).getD b.title ≠ ""
      cases hpt : p.title with
      | none => simpa using h1
      | some u => simpa using q1 u hpt
    · show (p.author.map jsTrim).getD b.author ≠ ""
      cases hpa : p.author with
      | none => simpa using h2
      | some u => simpa using q2 u hpa
    · show p.category.getD b.category ∈ categories
      cases hpc : p.category with
      | none => simpa using h3
      | some u => simpa using q3 u hpc
    · show 1000 ≤ p.publishedYear.getD b.publishedYear
      cases hpy : p.publishedYear with
      | none => simpa using h4
      | some u => simpa using (q4 u hpy).1
    · show p.publishedYear.getD b.publishedYear ≤ nowYear
      cases hpy : p.publishedYear with
      | none => simpa using h5
      | some u => simpa using (q4 u hpy).2
    · show 0 ≤ p.availableCopies.getD b.availableCopies
      cases hpq : p.availableCopies with
      | none => simpa using h6
      | some u => simpa using q5 u hpq
  · intro hm
    obtain ⟨m1, m2, m3, m4, m5, m6⟩ := srvValidate_iff.mp hm
    apply validatePatch_iff.mpr
    refine ⟨?_, ?_, ?_, ?_, ?_⟩
    · intro u hpt
      have he : (applyPatch b p).title = jsTrim u := by simp [applyPatch, hpt]
      rwa [he] at m1
    · intro u hpa
      have he : (applyPatch b p).author = jsTrim u := by simp [applyPatch, hpa]
      rwa [he] at m2
    · intro u hpc
      have he : (applyPatch b p).category = u := by simp [applyPatch, hpc]
      rwa [he] at m3
    · intro u hpy
      have he : (applyPatch b p).publishedYear = u := by simp [applyPatch, hpy]
      rw [he] at m4 m5
      exact ⟨m4, m5⟩
    · intro u hpq
      have he : (applyPatch b p).availableCopies = u := by simp [applyPatch, hpq]
      rwa [he] at m6

/-- C5 is refuted in its NotFound part: because `findByIdAndUpdate` casts
and validates the update client-side before the query runs, an invalid
provided field fails with ValidationError even when no record has the given
id — here a PUT with an invalid category on the empty store. -/
theorem C5_counterexample :
    srvUpdateFields 2026 oidA badCategoryPatch [] = .error .validationError ∧
    srvUpdateFields 2026 oidA badCategoryPatch [] ≠ .error .notFound := by
  have hid : isValidObjectId oidA = true := by decide
  have hp : validatePatch 2026 badCategoryPatch = false := by decide
  have h : srvUpdateFields 2026 oidA badCategoryPatch [] = .error .validationError := by
    simp [srvUpdateFields, hid, hp]
  refine ⟨h, ?_⟩
  rw [h]
  simp

/-- C5 amended: UpdateFields validates the provided fields first, so it
can return ValidationError on a missing id; apart from that overlap it
behaves exactly as the spec words it — on every store whose documents
already pass validation, whenever the record exists or the provided fields
are valid, the source operation coincides with the spec's
lookup-then-fully-revalidate-the-merged-record operation (so constraints on
unmentioned fields can never be violated by the merged record). -/
theorem C5_update_fields (nowYear : ℚ) (id : String) (p : BookInput)
    (s : List Book)
    (hinv : ∀ b ∈ s, srvValidate nowYear b = true)
    (hcond : (findById s id).isSome ∨ validatePatch nowYear p = true) :
    srvUpdateFields nowYear id p s = specUpdateFields nowYear id p s := by
  by_cases hid : isValidObjectId id = true
  · cases hfind : findById s id with
    | none =>
      have hp : validatePatch nowYear p = true := by
        rcases hcond with h | h
        · rw [hfind] at h
          simp at h
        · exact h
      simp [srvUpdateFields, specUpdateFields, hid, hfind, hp]
    | some b =>
      have hb := hinv b (List.mem_of_find?_eq_some hfind)
      have heq := validatePatch_eq_srvValidate b p hb
      by_cases hp : validatePatch nowYear p = true
      · have hm : srvValidate nowYear (applyPatch b p) = true := heq ▸ hp
        simp [srvUpdateFields, specUpdateFields, hid, hfind, hp, hm]
      · have hp' : validatePatch nowYear p = false := by
          cases hval : validatePatch nowYear p with
          | false => rfl
          | true => exact absurd hval hp
        have hm : srvValidate nowYear (applyPatch b p) = false := heq ▸ hp'
        simp [srvUpdateFields, specUpdateFields, hid, hfind, hp', hm]
  · simp [srvUpdateFields, specUpdateFields, hid]

/-- Witness for C5: on the store holding Dune, updating its category to
Science is the same under both formulations. -/
theorem C5_update_fields_witness :
    srvUpdateFields 2026 oidA { category := some "Science" } [duneBook] =
      specUpdateFields 2026 oidA { category := some "Science" } [duneBook] :=
  C5_update_fields 2026 oidA { category := some "Science" } [duneBook]
    (by
      intro b hb
      rw [List.mem_singleton.mp hb]
      decide)
    (Or.inr (by decide))

/-- Every member of the enumeration is unchanged by trimming. -/
theorem categories_jsTrim_fixed : ∀ x ∈ categories, jsTrim x = x := by decide

theorem contains_eq_false_of_not_mem {c : String} (h : c ∉ categories) :
    categories.contains c = false := by
  cases hx : categories.contains c with
  | false => rfl
  | true => exact absurd (List.elem_iff.mp hx) h

theorem not_mem_of_jsTrim_not_mem {c : String} (h : jsTrim c ∉ categories) :
    c ∉ categories :=
  fun hmem => h ((categories_jsTrim_fixed c hmem).symm ▸ hmem)

/-- Whatever document `mkBook` materialises carries the input's
`publishedYear`. -/
theorem mkBook_year {tc : Bool} {newId : String} {inp : BookInput} {b : Book}
    (hmk : mkBook tc newId inp = some b) :
    inp.publishedYear = some b.publishedYear := by
  obtain ⟨i1, i2, i3, i4, i5⟩ := inp
  cases i1 <;> cases i2 <;> cases i3 <;> cases i4 <;> simp_all [mkBook] <;>
    simp [← hmk]

/-- C6: setting a category outside the enumeration fails with
ValidationError in both modes: service Create, service UpdateFields (the
ChangeCategory special case included), script create/insert, and script
`changeCategory` (whose schema trims the incoming value first, hence the
hypothesis on the trimmed value). -/
theorem C6_invalid_category (nowYear : ℚ) (newId : String) (c : String)
    (hc : jsTrim c ∉ categories)
    (inp₁ : BookInput) (s₁ : List Book) (h₁ : inp₁.category = some c)
    (inp₂ : BookInput) (s₂ : List Book) (h₂ : inp₂.category = some c)
    (id₃ : String) (p₃ : BookInput) (s₃ : List Book)
    (hid₃ : isValidObjectId id₃ = true) (h₃ : p₃.category = some c)
    (t₄ : String) (s₄ : List Book) (b₄ : Book)
    (h₄ : findByTitle s₄ t₄ = some b₄) :
    srvCreate nowYear newId inp₁ s₁ = .error .validationError ∧
    libCreate nowYear newId inp₂ s₂ = .error .validationError ∧
    srvUpdateFields nowYear id₃ p₃ s₃ = .error .validationError ∧
    changeCategory nowYear t₄ c s₄ = .error .validationError := by
  have hcu : c ∉ categories := not_mem_of_jsTrim_not_mem hc
  have hcon : categories.contains c = false := contains_eq_false_of_not_mem hcu
  have hcon' : categories.contains (jsTrim c) = false :=
    contains_eq_false_of_not_mem hc
  refine ⟨?_, ?_, ?_, ?_⟩
  · obtain ⟨i1, i2, i3, i4, i5⟩ := inp₁
    cases h₁
    cases i1 <;> cases i2 <;> cases i4 <;>
      simp [srvCreate, mkBook, srvValidate, hcu]
  · obtain ⟨i1, i2, i3, i4, i5⟩ := inp₂
    cases h₂
    cases i1 <;> cases i2 <;> cases i4 <;>
      simp [libCreate, mkBook, libValidate, srvValidate, hc]
  · have hp : validatePatch nowYear p₃ = false := by
      cases hv : validatePatch nowYear p₃ with
      | false => rfl
      | true =>
        obtain ⟨-, -, q3, -, -⟩ := validatePatch_iff.mp hv
        exact absurd (q3 c h₃) hcu
    simp [srvUpdateFields, hid₃, hp]
  · have hlv : libValidate nowYear { b₄ with category := jsTrim c } = false := by
      cases hv : libValidate nowYear { b₄ with category := jsTrim c } with
      | false => rfl
      | true =>
        have hmem : jsTrim c ∈ categories :=
          (srvValidate_iff.mp (libValidate_iff.mp hv).1).2.2.1
        exact absurd hmem hc
    simp [changeCategory, h₄, hlv]

/-- Witness for C6: all four operations reject the category
"InvalidCategory". -/
theorem C6_invalid_category_witness :
    srvCreate 2026 oidA { demoInput with category := some "InvalidCategory" } [] =
      .error .validationError ∧
    libCreate 2026 oidA { demoInput with category := some "InvalidCategory" } [] =
      .error .validationError ∧
    srvUpdateFields 2026 oidA badCategoryPatch [duneBook] =
      .error .validationError ∧
    changeCategory 2026 "Dune" "InvalidCategory" [duneBook] =
      .error .validationError :=
  C6_invalid_category 2026 oidA "InvalidCategory" (by decide)
    { demoInput with category := some "InvalidCategory" } [] rfl
    { demoInput with category := some "InvalidCategory" } [] rfl
    oidA badCategoryPatch [duneBook] (by decide) rfl
    "Dune" [duneBook] duneBook (by decide)

/-- C7 is refuted in its service-mode part: server.js's schema has no
integer validator on `publishedYear`, so a Create with the in-range
non-integer year 2011.5 succeeds instead of failing with ValidationError. -/
theorem C7_counterexample :
    srvCreate 2026 oidA halfYearInput [] = .ok (halfYearBook, [halfYearBook]) ∧
    isInt halfYearBook.publishedYear = false := by
  have hv : srvValidate 2026 halfYearBook = true :=
    srvValidate_iff.mpr
      ⟨by decide, by decide, by decide, by norm_num [halfYearBook],
        by norm_num [halfYearBook], by decide⟩
  constructor
  · have hstep : srvCreate 2026 oidA halfYearInput [] =
        if srvValidate 2026 halfYearBook then .ok (halfYearBook, [halfYearBook])
        else .error .validationError := rfl
    rw [hstep, if_pos hv]
  · show isInt (4023/2 : ℚ) = false
    have hden : ((4023 : ℚ)/2).den = 2 := by norm_num
    simp [isInt, hden]

/-- C7 amended: a `publishedYear` outside [1000, current year] fails
Create with ValidationError in both modes; a non-integer year additionally
fails in script mode (whose schema has the `Number.isInteger` validator),
but service mode accepts any in-range year, integer or not. -/
theorem C7_published_year (nowYear : ℚ) (newId : String)
    (inp₁ : BookInput) (s₁ : List Book) (y₁ : ℚ)
    (h₁ : inp₁.publishedYear = some y₁)
    (hbad₁ : y₁.den ≠ 1 ∨ y₁ < 1000 ∨ nowYear < y₁)
    (inp₂ : BookInput) (s₂ : List Book) (y₂ : ℚ)
    (h₂ : inp₂.publishedYear = some y₂)
    (hbad₂ : y₂ < 1000 ∨ nowYear < y₂)
    (inp₃ : BookInput) (s₃ : List Book) (t₃ a₃ c₃ : String) (y₃ : ℚ)
    (ht₃ : inp₃.title = some t₃) (hht₃ : jsTrim t₃ ≠ "")
    (ha₃ : inp₃.author = some a₃) (hha₃ : jsTrim a₃ ≠ "")
    (hc₃ : inp₃.category = some c₃) (hcc₃ : c₃ ∈ categories)
    (hy₃ : inp₃.publishedYear = some y₃)
    (hy₃1 : 1000 ≤ y₃) (hy₃2 : y₃ ≤ nowYear)
    (hq₃ : 0 ≤ inp₃.availableCopies.getD 1) :
    libCreate nowYear newId inp₁ s₁ = .error .validationError ∧
    srvCreate nowYear newId inp₂ s₂ = .error .validationError ∧
    ∃ b : Book, srvCreate nowYear newId inp₃ s₃ = .ok (b, s₃ ++ [b]) ∧
      b.publishedYear = y₃ := by
  refine ⟨?_, ?_, ?_⟩
  · cases hmk : mkBook true newId inp₁ with
    | none => simp [libCreate, hmk]
    | some b =>
      have hby : b.publishedYear = y₁ := by
        have := mkBook_year hmk
        rw [h₁] at this
        exact (Option.some_inj.mp this).symm
      have hlv : libValidate nowYear b = false := by
        cases hv : libValidate nowYear b with
        | false => rfl
        | true =>
          obtain ⟨hsrv, hyd, -⟩ := libValidate_iff.mp hv
          obtain ⟨-, -, -, hlo, hhi, -⟩ := srvValidate_iff.mp hsrv
          rw [hby] at hyd hlo hhi
          rcases hbad₁ with h | h | h
          · exact absurd hyd h
          · exact absurd hlo (not_le.mpr h)
          · exact absurd hhi (not_le.mpr h)
      simp [libCreate, hmk, hlv]
  · cases hmk : mkBook false newId inp₂ with
    | none => simp [srvCreate, hmk]
    | some b =>
      have hby : b.publishedYear = y₂ := by
        have := mkBook_year hmk
        rw [h₂] at this
        exact (Option.some_inj.mp this).symm
      have hsv : srvValidate nowYear b = false := by
        cases hv : srvValidate nowYear b with
        | false => rfl
        | true =>
          obtain ⟨-, -, -, hlo, hhi, -⟩ := srvValidate_iff.mp hv
          rw [hby] at hlo hhi
          rcases hbad₂ with h | h
          · exact absurd hlo (not_le.mpr h)
          · exact absurd hhi (not_le.mpr h)
      simp [srvCreate, hmk, hsv]
  · have hmk : mkBook false newId inp₃ =
        some { id := newId, title := jsTrim t₃, author := jsTrim a₃,
               category := c₃, publishedYear := y₃,
               availableCopies := inp₃.availableCopies.getD 1 } := by
      unfold mkBook
      rw [ht₃, ha₃, hc₃, hy₃]
      rfl
    have hv : srvValidate nowYear
        { id := newId, title := jsTrim t₃, author := jsTrim a₃, category := c₃,
          publishedYear := y₃, availableCopies := inp₃.availableCopies.getD 1 } = true :=
      srvValidate_iff.mpr ⟨hht₃, hha₃, hcc₃, hy₃1, hy₃2, hq₃⟩
    refine ⟨{ id := newId, title := jsTrim t₃, author := jsTrim a₃,
              category := c₃, publishedYear := y₃,
              availableCopies := inp₃.availableCopies.getD 1 }, ?_, rfl⟩
    simp [srvCreate, hmk, hv]

/-- Witness for C7: script mode rejects the year 2011.5 while service mode
accepts it; both modes reject the out-of-range year 999. -/
theorem C7_published_year_witness :
    libCreate 2026 oidA halfYearInput [] = .error .validationError ∧
    srvCreate 2026 oidA { demoInput with publishedYear := some 999 } [] =
      .error .validationError ∧
    ∃ b : Book, srvCreate 2026 oidA halfYearInput [] = .ok (b, [] ++ [b]) ∧
      b.publishedYear = 4023/2 := by
  have h := C7_published_year 2026 oidA
    halfYearInput [] (4023/2) rfl (Or.inl (by norm_num))
    { demoInput with publishedYear := some 999 } [] 999 rfl
      (Or.inl (by norm_num))
    halfYearInput [] "Dune" "Frank Herbert" "Fiction" (4023/2)
      rfl (by decide) rfl (by decide) rfl (by decide) rfl
      (by norm_num) (by norm_num) (by norm_num [halfYearInput])
  exact h

/-- C9 is refuted in its store-failure part: a store-layer failure during
AdjustCopies lands in the PATCH route's catch block, which responds 400 —
one of the business-rule statuses — not 500. -/
theorem C9_counterexample :
    (patchCopiesRoute 2026 (some "connection lost") oidA 1 [duneBook]).1.status = 400 ∧
    (patchCopiesRoute 2026 (some "connection lost") oidA 1 [duneBook]).1.status ≠ 500 := by
  exact ⟨rfl, by decide⟩

/-- C9 amended: the business-rule statuses follow the fixed mapping —
200/201 on success, 400 on validation or guard failure, 404 on a missing
record — but an unexpected store failure is surfaced as 500 only by the
read, delete and seed routes; the create, update and adjust-copies routes
catch it as 400. -/
theorem C9_status_mapping (nowYear : ℚ) (e : String) (s : List Book)
    (cat : String) (y change : ℚ) (id newId : String) (inp p : BookInput)
    (ids : Nat → String)
    (newId₂ : String) (inp₂ : BookInput) (s₂ s₂' : List Book) (b₂ : Book)
    (hcr : srvCreate nowYear newId₂ inp₂ s₂ = .ok (b₂, s₂'))
    (newId₃ : String) (inp₃ : BookInput) (s₃ : List Book)
    (hcrerr : srvCreate nowYear newId₃ inp₃ s₃ = .error .validationError)
    (id₄ : String) (p₄ : BookInput) (s₄ : List Book)
    (hup₄ : srvUpdateFields nowYear id₄ p₄ s₄ = .error .notFound)
    (id₅ : String) (p₅ : BookInput) (s₅ : List Book)
    (hup₅ : srvUpdateFields nowYear id₅ p₅ s₅ = .error .validationError)
    (id₆ : String) (p₆ : BookInput) (s₆ s₆' : List Book) (b₆ : Book)
    (hup₆ : srvUpdateFields nowYear id₆ p₆ s₆ = .ok (b₆, s₆'))
    (id₇ : String) (c₇ : ℚ) (s₇ : List Book)
    (hid₇ : isValidObjectId id₇ = true) (hf₇ : findById s₇ id₇ = none)
    (id₈ : String) (c₈ : ℚ) (s₈ : List Book) (b₈ : Book)
    (hid₈ : isValidObjectId id₈ = true) (hf₈ : findById s₈ id₈ = some b₈)
    (hneg₈ : b₈.availableCopies + c₈ < 0)
    (id₉ : String) (c₉ : ℚ) (s₉ : List Book) (b₉ : Book)
    (hid₉ : isValidObjectId id₉ = true) (hf₉ : findById s₉ id₉ = some b₉)
    (hpos₉ : ¬ b₉.availableCopies + c₉ < 0)
    (hv₉ : srvValidate nowYear b₉ = true)
    (idA : String) (sA : List Book)
    (hidA : isValidObjectId idA = true) (hfA : findById sA idA = none)
    (idB : String) (sB : List Book) (bB : Book)
    (hidB : isValidObjectId idB = true) (hfB : findById sB idB = some bB)
    (hposB : 0 < bB.availableCopies)
    (idC : String) (sC : List Book) (bC : Book)
    (hidC : isValidObjectId idC = true) (hfC : findById sC idC = some bC)
    (hzeroC : bC.availableCopies = 0) :
    (getAllBooksRoute (some e) s).status = 500 ∧
    (getByCategoryRoute (some e) cat s).status = 500 ∧
    (getByYearRoute (some e) y s).status = 500 ∧
    (getBookRoute (some e) id s).status = 500 ∧
    (deleteBookRoute (some e) id s).1.status = 500 ∧
    (seedRoute (some e) ids s).1.status = 500 ∧
    (createBookRoute nowYear (some e) newId inp s).1.status = 400 ∧
    (putBookRoute nowYear (some e) id p s).1.status = 400 ∧
    (patchCopiesRoute nowYear (some e) id change s).1.status = 400 ∧
    (getAllBooksRoute none s).status = 200 ∧
    (seedRoute none ids s).1.status = 200 ∧
    (createBookRoute nowYear none newId₂ inp₂ s₂).1.status = 201 ∧
    (createBookRoute nowYear none newId₃ inp₃ s₃).1.status = 400 ∧
    (putBookRoute nowYear none id₄ p₄ s₄).1.status = 404 ∧
    (putBookRoute nowYear none id₅ p₅ s₅).1.status = 400 ∧
    (putBookRoute nowYear none id₆ p₆ s₆).1.status = 200 ∧
    (patchCopiesRoute nowYear none id₇ c₇ s₇).1.status = 404 ∧
    (patchCopiesRoute nowYear none id₈ c₈ s₈).1.status = 400 ∧
    (patchCopiesRoute nowYear none id₉ c₉ s₉).1.status = 200 ∧
    (deleteBookRoute none idA sA).1.status = 404 ∧
    (deleteBookRoute none idB sB).1.status = 400 ∧
    (deleteBookRoute none idC sC).1.status = 200 := by
  have hnposC : ¬ 0 < bC.availableCopies := by
    rw [hzeroC]
    exact lt_irrefl 0
  refine ⟨rfl, rfl, rfl, rfl, rfl, rfl, rfl, rfl, rfl, rfl, rfl,
    ?_, ?_, ?_, ?_, ?_, ?_, ?_, ?_, ?_, ?_, ?_⟩
  · simp [createBookRoute, hcr]
  · simp [createBookRoute, hcrerr]
  · simp [putBookRoute, hup₄]
  · simp [putBookRoute, hup₅]
  · simp [putBookRoute, hup₆]
  · simp [patchCopiesRoute, srvAdjustCopies, hid₇, hf₇]
  · simp [patchCopiesRoute, srvAdjustCopies, hid₈, hf₈, hneg₈]
  · have hv' := srvValidate_setCopies hv₉ (not_lt.mp hpos₉)
    simp [patchCopiesRoute, srvAdjustCopies, hid₉, hf₉, hpos₉, hv']
  · simp [deleteBookRoute, hidA, hfA]
  · simp [deleteBookRoute, hidB, hfB, hposB]
  · simp [deleteBookRoute, hidC, hfC, hnposC]

/-- Witness for C9: the whole mapping exercised on concrete stores — in
particular a store failure during the copies patch yields 400 while the
same failure during a read or delete yields 500. -/
theorem C9_status_mapping_witness :
    (patchCopiesRoute 2026 (some "down") oidA 1 [duneBook]).1.status = 400 ∧
    (deleteBookRoute (some "down") oidA [duneBook]).1.status = 500 ∧
    (createBookRoute 2026 none oidB demoInput []).1.status = 201 ∧
    (patchCopiesRoute 2026 none oidA (-5) [duneBook]).1.status = 400 ∧
    (deleteBookRoute none oidA [zeroCopiesBook]).1.status = 200 := by
  have h := C9_status_mapping 2026 "down" [duneBook] "Fiction" 2015 1 oidA oidB
    demoInput demoInput (fun _ => oidB)
    oidB demoInput [] _ _ rfl
    oidB badCategoryPatch [] rfl
    oidA { category := some "Science" } [] rfl
    oidA badCategoryPatch [duneBook] rfl
    oidA { category := some "Science" } [duneBook] _ _ rfl
    oidA 1 [] (by decide) (by decide)
    oidA (-5) [duneBook] duneBook (by decide) (by decide) (by norm_num [duneBook])
    oidA 2 [duneBook] duneBook (by decide) (by decide) (by norm_num [duneBook])
      (by decide)
    oidB [duneBook] (by decide) (by decide)
    oidA [duneBook] duneBook (by decide) (by decide) (by norm_num [duneBook])
    oidA [zeroCopiesBook] zeroCopiesBook (by decide) (by decide)
      (by norm_num [zeroCopiesBook])
  exact ⟨h.2.2.2.2.2.2.2.2.1, h.2.2.2.2.1,
    h.2.2.2.2.2.2.2.2.2.2.2.1,
    h.2.2.2.2.2.2.2.2.2.2.2.2.2.2.2.2.2.1,
    h.2.2.2.2.2.2.2.2.2.2.2.2.2.2.2.2.2.2.2.2.2⟩

end LibraryApp
